import Mathlib

/-!
Verification of the deterministic scoring-and-escalation pipeline of the
ethraic-platform repository: a shallow embedding into Lean of the text
analytics in `lib/metrics.ts` (tokenizer, lexical metrics, composite scorer,
EMA smoother, phase classifier, paradigm-state machine, safety assessment)
and of the crisis detector in `lib/crisis-protocols.ts`, together with
theorems settling the specification claims about them.

Modelling conventions:
* JavaScript finite floating-point numbers are modelled as rationals (`ℚ`);
  the two metrics that call real logarithms (`entropyNorm`, `depthScore`)
  are modelled over `ℝ` with `Real.logb` / `Real.log`.
* Where JavaScript arithmetic can produce `NaN` or `Infinity` (the crisis
  protocols divide by possibly-zero counts), numbers are modelled by the
  type `JNum` with explicit `nan` / `inf` / `ninf` values and IEEE-style
  propagation, so that the `0/0` behaviour of the source is visible.
* JavaScript `Map` / `Set` are modelled as association lists / lists with
  `dedup`, preserving insertion order exactly as `Map.set` does.
* `String.prototype.includes` is substring containment; regex character
  classes are modelled on the ASCII fragment (the claims under study do not
  involve non-ASCII input).
-/

namespace Ethraic

/-! ## JavaScript number model (used by lib/crisis-protocols.ts)

A JavaScript `number` is `NaN`, `+Infinity`, `-Infinity`, or a finite value
(modelled as a rational). -/

inductive JNum where
  | nan : JNum
  | inf : JNum
  | ninf : JNum
  | num (q : ℚ) : JNum
deriving DecidableEq

namespace JNum

/-- JS addition: `NaN` absorbs; `Infinity + -Infinity = NaN`. -/
def add : JNum → JNum → JNum
  | nan, _ => nan
  | _, nan => nan
  | inf, ninf => nan
  | ninf, inf => nan
  | inf, _ => inf
  | _, inf => inf
  | ninf, _ => ninf
  | _, ninf => ninf
  | num a, num b => num (a + b)

/-- JS unary minus. -/
def neg : JNum → JNum
  | nan => nan
  | inf => ninf
  | ninf => inf
  | num a => num (-a)

/-- JS subtraction. -/
def sub (a b : JNum) : JNum := add a (neg b)

/-- JS multiplication: `NaN` absorbs; `Infinity * 0 = NaN`. -/
def mul : JNum → JNum → JNum
  | nan, _ => nan
  | _, nan => nan
  | inf, inf => inf
  | inf, ninf => ninf
  | ninf, inf => ninf
  | ninf, ninf => inf
  | inf, num b => if b = 0 then nan else if 0 < b then inf else ninf
  | num a, inf => if a = 0 then nan else if 0 < a then inf else ninf
  | ninf, num b => if b = 0 then nan else if 0 < b then ninf else inf
  | num a, ninf => if a = 0 then nan else if 0 < a then ninf else inf
  | num a, num b => num (a * b)

/-- JS division: `0/0 = NaN`, `x/0 = ±Infinity` for `x ≠ 0` (the sign of the
zero divisor is taken to be `+0`, which is what the source code can produce). -/
def div : JNum → JNum → JNum
  | nan, _ => nan
  | _, nan => nan
  | inf, inf => nan
  | inf, ninf => nan
  | ninf, inf => nan
  | ninf, ninf => nan
  | inf, num b => if 0 ≤ b then inf else ninf
  | ninf, num b => if 0 ≤ b then ninf else inf
  | num _, inf => num 0
  | num _, ninf => num 0
  | num a, num b =>
      if b = 0 then (if a = 0 then nan else if 0 < a then inf else ninf)
      else num (a / b)

/-- JS `<` comparison: any comparison with `NaN` is false. -/
def ltb : JNum → JNum → Bool
  | nan, _ => false
  | _, nan => false
  | inf, _ => false
  | ninf, ninf => false
  | ninf, _ => true
  | num _, inf => true
  | num _, ninf => false
  | num a, num b => decide (a < b)

/-- JS `>` comparison. -/
def gtb (a b : JNum) : Bool := ltb b a

/-- JS `Math.min` of two arguments: `NaN` absorbs. -/
def min2 : JNum → JNum → JNum
  | nan, _ => nan
  | _, nan => nan
  | inf, b => b
  | a, inf => a
  | ninf, _ => ninf
  | _, ninf => ninf
  | num a, num b => num (min a b)

/-- JS `Math.max` of two arguments: `NaN` absorbs. -/
def max2 : JNum → JNum → JNum
  | nan, _ => nan
  | _, nan => nan
  | ninf, b => b
  | a, ninf => a
  | inf, _ => inf
  | _, inf => inf
  | num a, num b => num (max a b)

instance : Add JNum := ⟨add⟩
instance : Sub JNum := ⟨sub⟩
instance : Mul JNum := ⟨mul⟩
instance : Div JNum := ⟨div⟩
instance : Neg JNum := ⟨neg⟩

instance (n : ℕ) : OfNat JNum n := ⟨num n⟩

instance : OfScientific JNum := ⟨fun m e d => num (OfScientific.ofScientific m e d)⟩

end JNum

/-! ## Character-level helpers shared by the two source files -/

/-- ASCII fragment of the JS whitespace class `\s`. -/
def jsIsSpace (c : Char) : Bool :=
  c == ' ' || c == '\t' || c == '\n' || c == '\r' || c == '\x0b' || c == '\x0c'

/-- ASCII fragment of the Unicode letter/digit class `[\p{L}\p{N}]` used by
`normalizeText` in lib/metrics.ts. -/
def isWordChar (c : Char) : Bool := c.isAlpha || c.isDigit

/-- The word class `\w` used by regex word boundaries `\b`. -/
def jsRegexWordChar (c : Char) : Bool := c.isAlphanum || c == '_'

/-- JS `String.prototype.split` on a regex matching runs of characters
satisfying `p`: fields between maximal separator runs, keeping the empty
fields that JS produces at the edges (`"".split` is `[""]`,
`" a".split(/\s+/)` is `["", "a"]`). -/
def fields (p : Char → Bool) : List Char → List (List Char)
  | [] => [[]]
  | c :: cs =>
    if p c then
      [] :: fields p (cs.dropWhile p)
    else
      match fields p cs with
      | [] => [[c]]
      | f :: fs => (c :: f) :: fs
termination_by l => l.length
decreasing_by
  · exact Nat.lt_succ_of_le (List.dropWhile_sublist p).length_le
  · exact Nat.lt_succ_self _

/-- JS `String.prototype.trim` on a character list. -/
def trimChars (l : List Char) : List Char :=
  ((l.dropWhile jsIsSpace).reverse.dropWhile jsIsSpace).reverse

/-- Lower-cased character list of a string (JS `toLowerCase`, ASCII fragment). -/
def lowerChars (s : String) : List Char := s.data.map Char.toLower

/-- JS `a.includes(b)`: contiguous substring containment. -/
def strIncludes (s sub : String) : Bool :=
  (List.range (s.data.length + 1)).any fun i =>
    (s.data.drop i).take sub.data.length == sub.data

/-- Number of markers of `markers` contained (as substrings) in the
lower-cased message: models `markers.filter(m => message.toLowerCase().includes(m)).length`. -/
def countContained (message : String) (markers : List String) : ℕ :=
  (markers.filter fun m => strIncludes (String.mk (lowerChars message)) m).length

/-- Number of occurrences of the character `c` in `s`: models
`(s.match(/c/g) || []).length` for a single-character pattern. -/
def countChar (s : String) (c : Char) : ℕ := (s.data.filter fun d => d == c).length

/-! ## lib/metrics.ts -/

namespace Metrics

/-- Models `clamp(x, lo = 0, hi = 1)` from lib/metrics.ts:
`Math.max(lo, Math.min(hi, x))`. -/
def clamp {α : Type} [LinearOrder α] (x lo hi : α) : α := max lo (min hi x)

/-- Models `tokenize` from lib/metrics.ts. The source lower-cases, replaces every
character outside `[\p{L}\p{N}\s]` by a space, collapses whitespace, trims,
splits on spaces and drops empty fields; the composite effect is: split the
lower-cased text on maximal runs of non-word characters and drop the empty
fields (`filter(Boolean)`). -/
def tokenize (s : String) : List String :=
  if s.data.isEmpty then []
  else
    (((fields (fun c => !(isWordChar c)) (lowerChars s)).filter
        fun f => !(f.isEmpty))).map fun f => String.mk f

/-- JS `Map` lookup with default (`map.get(k) ?? d`). -/
def mapGetD (m : List (String × ℕ)) (k : String) (d : ℕ) : ℕ :=
  (m.find? fun p => p.1 == k).elim d Prod.snd

/-- JS `Map.set`: replaces the value of an existing key in place (insertion
order kept), appends a new key at the end. -/
def mapSet : List (String × ℕ) → String → ℕ → List (String × ℕ)
  | [], k, v => [(k, v)]
  | p :: rest, k, v =>
      if p.1 == k then (k, v) :: rest else p :: mapSet rest k v

/-- The token frequency `Map` built by the loop in `entropyNorm`:
`for (const t of tokens) freq.set(t, (freq.get(t) ?? 0) + 1)`. -/
def freqMap (tokens : List String) : List (String × ℕ) :=
  tokens.foldl (fun m t => mapSet m t (mapGetD m t 0 + 1)) []

/-- Models `entropyNorm` from lib/metrics.ts: Shannon entropy of the token
distribution normalized by `log2(max(1, V))`, clamped; `0` on zero tokens and
whenever the normalizer is not positive. -/
noncomputable def entropyNorm (tokens : List String) : ℝ :=
  let n := tokens.length
  if n = 0 then 0
  else
    let freq := freqMap tokens
    let V := freq.length
    let H := (freq.map fun kv =>
      -(((kv.2 : ℝ) / (n : ℝ)) * Real.logb 2 ((kv.2 : ℝ) / (n : ℝ)))).sum
    let Hmax := Real.logb 2 (max 1 (V : ℝ))
    if 0 < Hmax then clamp (H / Hmax) 0 1 else 0

/-- Models `clarityTTR` from lib/metrics.ts: distinct-token count over token count
(`new Set(tokens).size / n`), clamped; `0` on zero tokens. -/
def clarityTTR (tokens : List String) : ℚ :=
  let n := tokens.length
  if n = 0 then 0 else clamp ((tokens.dedup.length : ℚ) / (n : ℚ)) 0 1

/-- The saturation length `LMAX` of `depthScore`
(`Number(process.env.METRICS_DEPTH_LMAX ?? 400)`, default configuration). -/
def LMAX : ℝ := 400

/-- The discourse-marker vocabulary of the `depthScore` regex. -/
def depthMarkers : List String :=
  ["because", "therefore", "thus", "so that", "hence", "first", "second", "third"]

/-- Whether one marker word matches at position `i` of the character list
`l` with regex word boundaries `\b` on both sides. -/
def matchAtBoundary (l pat : List Char) (i : ℕ) : Bool :=
  ((l.drop i).take pat.length == pat)
    && (i == 0 || !(jsRegexWordChar (l.getD (i - 1) ' ')))
    && !(jsRegexWordChar (l.getD (i + pat.length) ' '))

/-- Number of matches of the case-insensitive word-boundary marker regex of
`depthScore` (`/\b(because|…|third)\b/gi`). -/
def countMarkers (text : String) : ℕ :=
  let l := lowerChars text
  ((List.range l.length).map fun i =>
    (depthMarkers.filter fun m => matchAtBoundary l m.data i).length).sum

/-- Models `depthScore` from lib/metrics.ts: `0.7` of a logarithmic length term plus
`0.3` of a clamped marker-density term, clamped. -/
noncomputable def depthScore (text : String) : ℝ :=
  let tokens := tokenize text
  let lenScore := Real.log (1 + (tokens.length : ℝ)) / Real.log (1 + LMAX)
  let markerBoost := clamp ((countMarkers text : ℝ) / 5) 0 1
  clamp (0.7 * lenScore + 0.3 * markerBoost) 0 1

/-- The adjacent-pair bigram list of `coherenceScore`
(`bigrams.push(tokens[i] + " " + tokens[i+1])`). -/
def bigramsOf (tokens : List String) : List String :=
  (List.range (tokens.length - 1)).map fun i =>
    tokens.getD i "" ++ " " ++ tokens.getD (i + 1) ""

/-- The `repeats` counter loop of `coherenceScore`: a bigram contributes once
when its running count reaches exactly `2` (`if (c === 2) repeats++`), i.e.
each distinct bigram occurring at least twice is counted once. -/
def repeatsLoop : List String → List (String × ℕ) → ℕ
  | [], _ => 0
  | b :: rest, seen =>
      let c := mapGetD seen b 0 + 1
      (if c = 2 then 1 else 0) + repeatsLoop rest (mapSet seen b c)

/-- Models `coherenceScore` from lib/metrics.ts: `1` for fewer than two tokens,
otherwise `1` minus the ratio of distinct repeated bigrams to total bigrams,
clamped. -/
def coherenceScore (tokens : List String) : ℚ :=
  let n := tokens.length
  if n < 2 then 1
  else
    let bigrams := bigramsOf tokens
    let repeats := repeatsLoop bigrams []
    let repRatio : ℚ := (repeats : ℚ) / ((max 1 bigrams.length : ℕ) : ℚ)
    clamp (1 - repRatio) 0 1

/-- Models `noveltyScore` from lib/metrics.ts: `1` minus the Jaccard similarity of
the current token set and the history token set, clamped; `0` on an empty
current message. The history `Set` is modelled as a list. -/
def noveltyScore (current history : List String) : ℚ :=
  if current.length = 0 then 0
  else
    let curSet := current.dedup
    let uni := (curSet ++ history).dedup.length
    let inter := (curSet.filter fun w => history.contains w).length
    let jaccard : ℚ := if 0 < uni then (inter : ℚ) / (uni : ℚ) else 0
    clamp (1 - jaccard) 0 1

/-- The weight vector type of lib/metrics.ts. -/
structure Weights where
  entropy : ℚ
  clarity : ℚ
  novelty : ℚ
  depth : ℚ
  coherence : ℚ
deriving DecidableEq

/-- Models `DEFAULT_WEIGHTS` from lib/metrics.ts: equal weighting `0.20` each. -/
def DEFAULT_WEIGHTS : Weights :=
  ⟨0.20, 0.20, 0.20, 0.20, 0.20⟩

/-- The per-message metric bundle consumed by `compositeScore`. -/
structure MetricParts where
  entropy : ℚ
  clarity : ℚ
  novelty : ℚ
  depth : ℚ
  coherence : ℚ
deriving DecidableEq

/-- Models `compositeScore` from lib/metrics.ts: weighted sum of the five parts
divided by the sum of the supplied weights, clamped; `0` when the weight sum
is not positive. A `null`/`undefined` weight vector falls back to
`DEFAULT_WEIGHTS` (`weights ?? DEFAULT_WEIGHTS`). -/
def compositeScore (weights : Option Weights) (parts : MetricParts) : ℚ :=
  let w := weights.getD DEFAULT_WEIGHTS
  let s := w.entropy * parts.entropy + w.clarity * parts.clarity +
    w.novelty * parts.novelty + w.depth * parts.depth +
    w.coherence * parts.coherence
  let sumW := w.entropy + w.clarity + w.novelty + w.depth + w.coherence
  if 0 < sumW then clamp (s / sumW) 0 1 else 0

/-- The `prev` argument of `ema`: a JS `number | null | undefined` whose
numeric case may be `NaN` (the source tests `prev == null || Number.isNaN(prev)`). -/
inductive EmaPrev where
  | null : EmaPrev
  | undef : EmaPrev
  | nan : EmaPrev
  | num (q : ℚ) : EmaPrev
deriving DecidableEq

/-- Models `ema` from lib/metrics.ts: returns `current` unchanged when `prev` is
`null`, `undefined` or `NaN`, otherwise the linear blend
`alpha * now + (1 - alpha) * prev`. Default `alpha` is `0.3`. -/
def ema (prev : EmaPrev) (now alpha : ℚ) : ℚ :=
  match prev with
  | .null => now
  | .undef => now
  | .nan => now
  | .num p => alpha * now + (1 - alpha) * p

/-- The phase label enum of `phaseFromComposite`. -/
inductive Phase where
  | SURFACE : Phase
  | EXPLORING : Phase
  | DEEP : Phase
  | INTEGRATION : Phase
  | BREAKTHROUGH : Phase
deriving DecidableEq

/-- Position of a phase in the banding order (used to state monotonicity). -/
def Phase.idx : Phase → ℕ
  | .SURFACE => 0
  | .EXPLORING => 1
  | .DEEP => 2
  | .INTEGRATION => 3
  | .BREAKTHROUGH => 4

/-- Models `phaseFromComposite` from lib/metrics.ts: strict threshold bands at
`0.30`, `0.50`, `0.70`, `0.85`. -/
def phaseFromComposite (c : ℚ) : Phase :=
  if c < 0.30 then .SURFACE
  else if c < 0.50 then .EXPLORING
  else if c < 0.70 then .DEEP
  else if c < 0.85 then .INTEGRATION
  else .BREAKTHROUGH

/-- Pointwise scaling of a weight vector by a constant `k` (`k*w` in the
composite-normalization property of the specification). -/
def scaleWeights (k : ℚ) (w : Weights) : Weights :=
  ⟨k * w.entropy, k * w.clarity, k * w.novelty, k * w.depth, k * w.coherence⟩

/-- The token sequence of a message repeating the same two-token bigram
twenty times (end-to-end scenario B of the specification). -/
def repeatedBigramTokens : List String := (List.replicate 20 ["a", "b"]).flatten

end Metrics

/-! ## lib/metrics.ts — `ParadigmShiftDetector` -/

namespace Paradigm

/-- The Kuhnian paradigm state enum of lib/metrics.ts. -/
inductive ParadigmState where
  | NORMAL_SCIENCE : ParadigmState
  | ANOMALY_AWARENESS : ParadigmState
  | CRISIS_EMERGENCE : ParadigmState
  | PARADIGM_REVOLUTION : ParadigmState
  | TRANSITION_CHAOS : ParadigmState
  | NEW_PARADIGM_FORMATION : ParadigmState
deriving DecidableEq

/-- Models `ParadigmShiftDetector.updateParadigmState`: a band lookup on the average
of the two inputs, written to `this.paradigmState`. The previous state `prev`
(the value of `this.paradigmState` before the call) is not read by the
source, which is what the determinism claim is about. -/
def updateParadigmState (prev : ParadigmState) (crisisLevel anomalyAccumulation : ℚ) :
    ParadigmState :=
  let composite := (crisisLevel + anomalyAccumulation) / 2
  if composite < 0.15 then .NORMAL_SCIENCE
  else if composite < 0.35 then .ANOMALY_AWARENESS
  else if composite < 0.55 then .CRISIS_EMERGENCE
  else if composite < 0.75 then .PARADIGM_REVOLUTION
  else if composite < 0.90 then .TRANSITION_CHAOS
  else .NEW_PARADIGM_FORMATION

/-- The `riskLevel` union type of `SafetyAssessment`. -/
inductive RiskLevel where
  | LOW : RiskLevel
  | MODERATE : RiskLevel
  | HIGH : RiskLevel
deriving DecidableEq

/-- The `intervention` union type of `SafetyAssessment`. -/
inductive Intervention where
  | STANDARD_SUPPORT : Intervention
  | ENHANCED_SUPPORT : Intervention
  | IMMEDIATE_SUPPORT : Intervention
deriving DecidableEq

/-- The `SafetyAssessment` record of lib/metrics.ts. -/
structure SafetyAssessment where
  riskLevel : RiskLevel
  intervention : Intervention
  recommendation : String
  response : String
deriving DecidableEq

/-- Models `ParadigmShiftDetector.assessPsychologicalSafety` from lib/metrics.ts. -/
def assessPsychologicalSafety (crisisLevel fragmentationLevel : ℚ) : SafetyAssessment :=
  if crisisLevel > 0.8 ∧ fragmentationLevel > 0.7 then
    { riskLevel := .HIGH
      intervention := .IMMEDIATE_SUPPORT
      recommendation := "Consider professional mental health support"
      response := "Crisis counseling mode – prioritize stability." }
  else if crisisLevel > 0.6 then
    { riskLevel := .MODERATE
      intervention := .ENHANCED_SUPPORT
      recommendation := "Monitor closely; provide grounding."
      response := "Supportive guidance with reality anchoring." }
  else
    { riskLevel := .LOW
      intervention := .STANDARD_SUPPORT
      recommendation := "Continue normal consciousness expansion."
      response := "Standard paradigm-shift guidance." }

end Paradigm

/-! ## lib/crisis-protocols.ts — `CrisisProtocols` -/

namespace Crisis

/-- The crisis category union type of `CrisisIndicator`, in the order the
five detectors are invoked by `analyzeForCrisis` (which is the tie-breaking
priority order). -/
inductive CrisisType where
  | cognitive_overload : CrisisType
  | emotional_distress : CrisisType
  | confusion_spiral : CrisisType
  | reality_disconnect : CrisisType
  | breakthrough_overwhelm : CrisisType
deriving DecidableEq

/-- Position of a category in the detector invocation order of
`analyzeForCrisis`. -/
def CrisisType.rank : CrisisType → ℕ
  | .cognitive_overload => 0
  | .emotional_distress => 1
  | .confusion_spiral => 2
  | .reality_disconnect => 3
  | .breakthrough_overwhelm => 4

/-- The severity union type of `CrisisIndicator`. -/
inductive Severity where
  | low : Severity
  | medium : Severity
  | high : Severity
  | critical : Severity
deriving DecidableEq

/-- Index of a severity in `severityOrder = ['low','medium','high','critical']`
(`severityOrder.indexOf` in the `reduce` of `analyzeForCrisis`). -/
def Severity.rank : Severity → ℕ
  | .low => 0
  | .medium => 1
  | .high => 2
  | .critical => 3

/-- The `CrisisIndicator` record of lib/crisis-protocols.ts. -/
structure CrisisIndicator where
  type : CrisisType
  severity : Severity
  confidence : JNum
  recommendation : String
  immediate_action : String
deriving DecidableEq

/-- Everything of a `CrisisIndicator` except the pseudo-randomly selected
`immediate_action` phrase. -/
def indicatorCore (i : CrisisIndicator) : CrisisType × Severity × JNum × String :=
  (i.type, i.severity, i.confidence, i.recommendation)

/-- The `SafetyMetrics` record of lib/crisis-protocols.ts. Fields are
JavaScript numbers, so they are modelled as `JNum`. -/
structure SafetyMetrics where
  cognitiveLoad : JNum
  emotionalStability : JNum
  coherenceLevel : JNum
  groundingScore : JNum
  overwhelmIndex : JNum
deriving DecidableEq

/-- The initial value of `this.safetyMetrics`. -/
def initialSafetyMetrics : SafetyMetrics :=
  { cognitiveLoad := 50
    emotionalStability := 80
    coherenceLevel := 75
    groundingScore := 85
    overwhelmIndex := 30 }

/-- One entry of `this.messageHistory`. -/
structure HistEntry where
  content : String
  timestamp : ℚ
  role : String
deriving DecidableEq

/-- The mutable per-session state of `CrisisProtocols` read or written by
`analyzeForCrisis` (the intervention log is written only by
`generateIntervention`, which is not under analysis). -/
structure CrisisState where
  safetyMetrics : SafetyMetrics
  messageHistory : List HistEntry
deriving DecidableEq

/-- The optional `metrics` argument of `analyzeForCrisis` (typed `any` in the
source): an object whose numeric properties may each be absent. -/
structure MetricsIn where
  depth : Option JNum
  paradigmShift : Option JNum
  emergence : Option JNum
  attentionCoherence : Option JNum

/-- JS `x || d` for an optionally-absent number `x`: `undefined`, `0` and
`NaN` are falsy and select the default. -/
def jsOrOpt (v : Option JNum) (d : JNum) : JNum :=
  match v with
  | none => d
  | some x => if x = JNum.num 0 ∨ x = JNum.nan then d else x

/-- Models `this.safetyThresholds.cognitiveOverload`. -/
def cognitiveOverloadThreshold : ℚ := 85

/-- Models `this.safetyThresholds.emotionalDistress`. -/
def emotionalDistressThreshold : ℚ := 75

/-- Models `this.safetyThresholds.confusionSpiral`. -/
def confusionSpiralThreshold : ℚ := 80

/-- Models `this.safetyThresholds.realityDisconnect`. -/
def realityDisconnectThreshold : ℚ := 70

/-- Models `this.safetyThresholds.breakthroughOverwhelm`. -/
def breakthroughOverwhelmThreshold : ℚ := 90

/-- Models `this.stabilizationPhrases.grounding`. -/
def groundingPhrases : List String :=
  ["Let\x27s take a moment to ground ourselves in the present.",
   "Take a deep breath. We can slow down the pace of exploration.",
   "Your safety and wellbeing come first. Let\x27s recalibrate."]

/-- Models `this.stabilizationPhrases.clarity`. -/
def clarityPhrases : List String :=
  ["Let me help clarify and organize these thoughts.",
   "We can break this down into smaller, manageable insights.",
   "Let\x27s focus on one core idea at a time."]

/-- Models `this.stabilizationPhrases.support`. -/
def supportPhrases : List String :=
  ["You\x27re navigating complex territory. That takes courage.",
   "These are profound realizations. It\x27s natural to need time to integrate them.",
   "Remember, breakthrough moments can feel intense. This is normal."]

/-- Models `this.stabilizationPhrases.reality`. -/
def realityPhrases : List String :=
  ["Let\x27s connect these insights back to your everyday experience.",
   "How might this understanding apply to your immediate context?",
   "While exploring consciousness, staying grounded is essential."]

/-- Models `getStabilizationPhrase`: picks `phrases[Math.floor(Math.random() *
phrases.length)]`; the random draw is modelled by an injected natural number
`r`, reduced modulo the pool size. -/
def getStabilizationPhrase (pool : List String) (r : ℕ) : String :=
  pool.getD (r % pool.length) ""

/-- The `overloadMarkers` list of `detectCognitiveOverload`. -/
def overloadMarkers : List String :=
  ["too much", "overwhelming", "can\x27t process", "confused", "lost",
   "spinning", "don\x27t understand", "too fast", "slow down", "wait"]

/-- The `distressMarkers` list of `detectEmotionalDistress`. -/
def distressMarkers : List String :=
  ["scared", "afraid", "anxious", "panic", "terrified", "help",
   "crying", "upset", "disturbed", "troubled", "distressed"]

/-- The `positiveMarkers` list of `detectEmotionalDistress`. -/
def positiveMarkers : List String :=
  ["excited", "amazing", "wonderful", "love", "beautiful", "joy"]

/-- The `confusionMarkers` list of `detectConfusionSpiral`. -/
def confusionMarkers : List String :=
  ["what", "confused", "don\x27t get it", "lost", "makes no sense",
   "contradictory", "paradox", "impossible", "how can"]

/-- The `disconnectMarkers` list of `detectRealityDisconnect`. -/
def disconnectMarkers : List String :=
  ["not real", "simulation", "matrix", "dream", "illusion",
   "nothing matters", "all meaningless", "fake", "unreal"]

/-- The `emotionalWords` list of `detectEmotionalLanguage`. -/
def emotionalWords : List String :=
  ["feel", "felt", "feeling", "emotion", "heart", "soul",
   "love", "hate", "fear", "joy", "sad", "angry", "happy"]

/-- The `connectors` list of `calculateCoherence`. -/
def connectors : List String :=
  ["because", "therefore", "thus", "so", "and", "but", "however"]

/-- The `concreteWords` list of `calculateGrounding`. -/
def concreteWords : List String :=
  ["see", "hear", "touch", "feel", "taste", "body", "physical",
   "real", "actual", "practical", "specific", "example", "like"]

/-- The `abstractWords` list of `calculateGrounding`. -/
def abstractWords : List String :=
  ["consciousness", "existence", "being", "essence", "infinite",
   "absolute", "transcendent", "universal", "eternal", "void"]

/-- The sentence separator class `[.!?]` of the `split(/[.!?]+/)` calls. -/
def sentSep (c : Char) : Bool := c == '.' || c == '!' || c == '?'

/-- Models `calculateComplexity`: average word length and words-per-sentence.
`split(/\s+/)` always yields at least one (possibly empty) field, and so
does `split(/[.!?]+/)`, so the divisions are by positive counts; the JNum
divisions keep the JS semantics regardless. -/
def calculateComplexity (message : String) : JNum :=
  let words := fields jsIsSpace message.data
  let avgWordLength :=
    JNum.num (((words.map List.length).sum : ℚ)) / JNum.num ((words.length : ℚ))
  let sentenceCount := (fields sentSep message.data).length
  let wordCount := words.length
  JNum.min2 100 (avgWordLength * 5 +
    (JNum.num ((wordCount : ℚ)) / JNum.num ((sentenceCount : ℚ))) * 2)

/-- Models `calculateResponseRate`: mean inter-message interval of the last 10
history entries, mapped through `min(100, (5000 / avgInterval) * 100)`;
returns `50` with fewer than 2 entries. -/
def calculateResponseRate (history : List HistEntry) : JNum :=
  let recentMessages := history.drop (history.length - 10)
  if recentMessages.length < 2 then 50
  else
    let intervals :=
      List.zipWith (fun a b => b.timestamp - a.timestamp) recentMessages recentMessages.tail
    let avgInterval := JNum.num intervals.sum / JNum.num ((intervals.length : ℚ))
    JNum.min2 100 ((JNum.num 5000 / avgInterval) * 100)

/-- Models `detectEmotionalLanguage`: number of emotional marker words contained in
the lower-cased message. -/
def detectEmotionalLanguage (message : String) : ℕ :=
  countContained message emotionalWords

/-- Models `calculateCoherence` from lib/crisis-protocols.ts: connector count plus
the complete-sentence ratio. When the message has no non-blank sentence the
source divides `0 / 0`, which is `NaN` in JavaScript; the `context` argument
is unused by the source body. -/
def calculateCoherence (message : String) (context : List String) : JNum :=
  let connectorCount := countContained message connectors
  let sentences := (fields sentSep message.data).filter fun s => 0 < (trimChars s).length
  let completeSentences :=
    (sentences.filter fun s => 3 < (fields jsIsSpace s).length).length
  JNum.min2 100 (JNum.num ((connectorCount : ℚ) * 15) +
    (JNum.num ((completeSentences : ℚ)) / JNum.num ((sentences.length : ℚ))) * 70)

/-- Models `calculateGrounding`: concrete-to-abstract marker ratio, falling back to
the raw concrete count when no abstract marker occurs. -/
def calculateGrounding (message : String) : JNum :=
  let concreteCount := countContained message concreteWords
  let abstractCount := countContained message abstractWords
  let ratio :=
    if 0 < abstractCount then JNum.num ((concreteCount : ℚ)) / JNum.num ((abstractCount : ℚ))
    else JNum.num ((concreteCount : ℚ))
  JNum.min2 100 (ratio * 50 + 30)

/-- Models `calculateAbstractness`: `1 - grounding / 100`. -/
def calculateAbstractness (message : String) : JNum :=
  JNum.num 1 - calculateGrounding message / 100

/-- Models `updateSafetyMetrics`: recomputes the five running safety metrics from
the current message; `overwhelmIndex` reads the just-assigned values. -/
def updateSafetyMetrics (message : String) (metrics : Option MetricsIn)
    (context : List String) (history : List HistEntry) : SafetyMetrics :=
  let messageComplexity := calculateComplexity message
  let responseRate := calculateResponseRate history
  let cognitiveLoad := JNum.min2 100 (messageComplexity * 0.4 + responseRate * 0.3 +
    jsOrOpt (metrics.bind MetricsIn.depth) 50 * 0.3)
  let emotionalIndicators := detectEmotionalLanguage message
  let emotionalStability :=
    JNum.max2 0 (100 - JNum.num ((emotionalIndicators : ℚ)) * 10)
  let coherenceLevel := calculateCoherence message context
  let groundingScore := calculateGrounding message
  let overwhelmIndex := JNum.min2 100 ((100 - emotionalStability) * 0.3 +
    cognitiveLoad * 0.3 + (100 - coherenceLevel) * 0.2 + (100 - groundingScore) * 0.2)
  { cognitiveLoad := cognitiveLoad
    emotionalStability := emotionalStability
    coherenceLevel := coherenceLevel
    groundingScore := groundingScore
    overwhelmIndex := overwhelmIndex }

/-- Models `detectCognitiveOverload`: marker/punctuation/caps score against the
cognitive-load threshold. The `metrics` argument is unused by the source
body. For an empty message `capsRatio` is `0 / 0 = NaN`, and every
comparison with `NaN` is false. -/
def detectCognitiveOverload (message : String) (metrics : Option MetricsIn)
    (sm : SafetyMetrics) (r : ℕ) : Option CrisisIndicator :=
  let markerCount := countContained message overloadMarkers
  let exclamationCount := countChar message '!'
  let questionCount := countChar message '?'
  let capsRatio :=
    JNum.num (((message.data.filter fun c => decide ('A' ≤ c ∧ c ≤ 'Z')).length : ℚ)) /
      JNum.num ((message.data.length : ℚ))
  let overloadScore := JNum.num ((markerCount : ℚ) * 20) +
    JNum.num ((exclamationCount : ℚ) * 10) + JNum.num ((questionCount : ℚ) * 5) +
    capsRatio * 100
  if JNum.gtb overloadScore 40 ||
      JNum.gtb sm.cognitiveLoad (JNum.num cognitiveOverloadThreshold) then
    some { type := .cognitive_overload
           severity := if JNum.gtb overloadScore 80 then .high
             else if JNum.gtb overloadScore 50 then .medium else .low
           confidence := JNum.min2 1 (overloadScore / 100)
           recommendation := "Slow down exploration pace, simplify concepts, provide breaks"
           immediate_action := getStabilizationPhrase clarityPhrases r }
  else none

/-- Models `detectEmotionalDistress`: distress-minus-positive marker intensity
against the emotional-stability threshold. -/
def detectEmotionalDistress (message : String) (sm : SafetyMetrics) (r : ℕ) :
    Option CrisisIndicator :=
  let distressCount := countContained message distressMarkers
  let positiveCount := countContained message positiveMarkers
  let emotionalIntensity := JNum.num ((distressCount : ℚ) * 25 - (positiveCount : ℚ) * 10)
  if JNum.gtb emotionalIntensity 30 ||
      JNum.ltb sm.emotionalStability (JNum.num (100 - emotionalDistressThreshold)) then
    some { type := .emotional_distress
           severity := if JNum.gtb emotionalIntensity 75 then .high
             else if JNum.gtb emotionalIntensity 40 then .medium else .low
           confidence := JNum.min2 1 (emotionalIntensity / 100)
           recommendation := "Provide emotional support, validate experience, offer grounding"
           immediate_action := getStabilizationPhrase supportPhrases r }
  else none

/-- Models `detectConfusionSpiral`: confusion markers, question marks and repeated
recent questioning against the coherence threshold. The `context` argument
is unused by the source body; the repetition check reads
`this.messageHistory`. -/
def detectConfusionSpiral (message : String) (context : List String)
    (history : List HistEntry) (sm : SafetyMetrics) (r : ℕ) : Option CrisisIndicator :=
  let questionMarks := countChar message '?'
  let confusionCount := countContained message confusionMarkers
  let recentQuestions :=
    ((history.drop (history.length - 5)).filter fun m => strIncludes m.content "?").length
  let spiralScore := JNum.num ((confusionCount : ℚ) * 20 + (questionMarks : ℚ) * 15 +
    (recentQuestions : ℚ) * 10)
  if JNum.gtb spiralScore 50 ||
      JNum.ltb sm.coherenceLevel (JNum.num (100 - confusionSpiralThreshold)) then
    some { type := .confusion_spiral
           severity := if JNum.gtb spiralScore 80 then .high
             else if JNum.gtb spiralScore 60 then .medium else .low
           confidence := JNum.min2 1 (spiralScore / 100)
           recommendation := "Break down concepts, provide concrete examples, check understanding"
           immediate_action := getStabilizationPhrase clarityPhrases r }
  else none

/-- Models `detectRealityDisconnect`: disconnect markers plus abstractness against
the grounding threshold. The `metrics` argument is unused by the source
body. -/
def detectRealityDisconnect (message : String) (metrics : Option MetricsIn)
    (sm : SafetyMetrics) (r : ℕ) : Option CrisisIndicator :=
  let disconnectCount := countContained message disconnectMarkers
  let abstractRatio := calculateAbstractness message
  let disconnectScore := JNum.num ((disconnectCount : ℚ) * 30) + abstractRatio * 50
  if JNum.gtb disconnectScore 40 ||
      JNum.ltb sm.groundingScore (JNum.num (100 - realityDisconnectThreshold)) then
    some { type := .reality_disconnect
           severity := if JNum.gtb disconnectScore 70 then .high
             else if JNum.gtb disconnectScore 50 then .medium else .low
           confidence := JNum.min2 1 (disconnectScore / 100)
           recommendation := "Provide grounding exercises, connect to concrete reality, practical applications"
           immediate_action := getStabilizationPhrase realityPhrases r }
  else none

/-- Models `detectBreakthroughOverwhelm`: weighted paradigm-shift/emergence/attention
score against the overwhelm threshold; `null` metrics short-circuit to no
indicator (`if (!metrics) return null`). -/
def detectBreakthroughOverwhelm (metrics : Option MetricsIn) (sm : SafetyMetrics)
    (r : ℕ) : Option CrisisIndicator :=
  match metrics with
  | none => none
  | some m =>
    let overwhelmScore := jsOrOpt m.paradigmShift 0 * 0.3 + jsOrOpt m.emergence 0 * 0.3 +
      (100 - jsOrOpt m.attentionCoherence 100) * 0.4
    if JNum.gtb overwhelmScore 60 ||
        JNum.gtb sm.overwhelmIndex (JNum.num breakthroughOverwhelmThreshold) then
      some { type := .breakthrough_overwhelm
             severity := if JNum.gtb overwhelmScore 80 then .high
               else if JNum.gtb overwhelmScore 70 then .medium else .low
             confidence := JNum.min2 1 (overwhelmScore / 100)
             recommendation := "Slow integration pace, celebrate insights, provide integration time"
             immediate_action := getStabilizationPhrase supportPhrases r }
    else none

/-- The history update at the top of `analyzeForCrisis`: push the incoming
message (role `user`, current timestamp) and keep the last 50 entries. -/
def pushHistory (st : CrisisState) (message : String) (now : ℚ) : List HistEntry :=
  let h := st.messageHistory ++ [{ content := message, timestamp := now, role := "user" }]
  if 50 < h.length then h.drop (h.length - 50) else h

/-- The `indicators` list built by `analyzeForCrisis`: each detector runs in
source order and pushes its indicator if it fired. The pseudo-random phrase
draws are modelled by `rnd` applied to the call-site index. -/
def firedIndicators (message : String) (metrics : Option MetricsIn)
    (context : List String) (history : List HistEntry) (sm : SafetyMetrics)
    (rnd : ℕ → ℕ) : List CrisisIndicator :=
  List.filterMap id
    [detectCognitiveOverload message metrics sm (rnd 0),
     detectEmotionalDistress message sm (rnd 1),
     detectConfusionSpiral message context history sm (rnd 2),
     detectRealityDisconnect message metrics sm (rnd 3),
     detectBreakthroughOverwhelm metrics sm (rnd 4)]

/-- The reducer callback of `analyzeForCrisis`:
`currentIndex > highestIndex ? current : highest` — the current indicator
replaces the running one only on strictly larger severity, so the earlier
indicator is kept on ties. -/
def severityReducer (highest current : CrisisIndicator) : CrisisIndicator :=
  if Severity.rank highest.severity < Severity.rank current.severity then current
  else highest

/-- The `reduce` of `analyzeForCrisis` over the fired-indicator list;
`null` on an empty list. -/
def selectHighest : List CrisisIndicator → Option CrisisIndicator
  | [] => none
  | h :: t => some (t.foldl severityReducer h)

/-- The property C5 asserts of the returned indicator: none only when no
category fired; otherwise the single returned indicator fired, has maximal
severity among the fired categories, and ties at maximal severity are won by
the smallest category rank (the fixed priority order cognitive overload >
emotional distress > confusion spiral > reality disconnect > breakthrough
overwhelm). -/
def isMaxPriorityChoice (fired : List CrisisIndicator) : Option CrisisIndicator → Prop
  | none => fired = []
  | some ind =>
      ind ∈ fired ∧
      (∀ j ∈ fired, Severity.rank j.severity ≤ Severity.rank ind.severity) ∧
      (∀ j ∈ fired, Severity.rank j.severity = Severity.rank ind.severity →
        CrisisType.rank ind.type ≤ CrisisType.rank j.type)

/-- Models `CrisisProtocols.analyzeForCrisis`: pushes the message into the bounded
history, recomputes the safety metrics, runs the five detectors and returns
the highest-severity indicator (or none) together with the updated session
state. -/
def analyzeForCrisis (message : String) (metrics : Option MetricsIn)
    (context : List String) (st : CrisisState) (now : ℚ) (rnd : ℕ → ℕ) :
    Option CrisisIndicator × CrisisState :=
  let hist := pushHistory st message now
  let sm := updateSafetyMetrics message metrics context hist
  (selectHighest (firedIndicators message metrics context hist sm rnd),
   { safetyMetrics := sm, messageHistory := hist })

end Crisis

/-! ## Theorems -/

/-- C4: `assessPsychologicalSafety(crisisLevel, fragmentationLevel)` returns
exactly one of three risk tiers: HIGH (with IMMEDIATE_SUPPORT) if and only if
`crisisLevel > 0.8` and `fragmentationLevel > 0.7`; otherwise MODERATE (with
ENHANCED_SUPPORT) if and only if `crisisLevel > 0.6`; otherwise LOW (with
STANDARD_SUPPORT). -/
theorem assessPsychologicalSafety_three_tiers (c f : ℚ) :
    ((Paradigm.assessPsychologicalSafety c f).riskLevel = .HIGH ↔
      c > 0.8 ∧ f > 0.7) ∧
    ((Paradigm.assessPsychologicalSafety c f).riskLevel = .MODERATE ↔
      ¬(c > 0.8 ∧ f > 0.7) ∧ c > 0.6) ∧
    ((Paradigm.assessPsychologicalSafety c f).riskLevel = .LOW ↔
      ¬(c > 0.8 ∧ f > 0.7) ∧ ¬(c > 0.6)) ∧
    ((Paradigm.assessPsychologicalSafety c f).intervention = .IMMEDIATE_SUPPORT ↔
      (Paradigm.assessPsychologicalSafety c f).riskLevel = .HIGH) ∧
    ((Paradigm.assessPsychologicalSafety c f).intervention = .ENHANCED_SUPPORT ↔
      (Paradigm.assessPsychologicalSafety c f).riskLevel = .MODERATE) ∧
    ((Paradigm.assessPsychologicalSafety c f).intervention = .STANDARD_SUPPORT ↔
      (Paradigm.assessPsychologicalSafety c f).riskLevel = .LOW) := by
  unfold Paradigm.assessPsychologicalSafety
  split_ifs with h1 h2 <;> simp_all

/-- C7: the EMA smoother satisfies the cold-start and boundary-alpha
identities: `ema(null, x, alpha) = x` (likewise for `undefined` and `NaN`
previous values), `ema(p, x, 0) = p` and `ema(p, x, 1) = x`. -/
theorem ema_cold_start_and_boundary_alpha :
    (∀ x a : ℚ, Metrics.ema .null x a = x) ∧
    (∀ x a : ℚ, Metrics.ema .undef x a = x) ∧
    (∀ x a : ℚ, Metrics.ema .nan x a = x) ∧
    (∀ p x : ℚ, Metrics.ema (.num p) x 0 = p) ∧
    (∀ p x : ℚ, Metrics.ema (.num p) x 1 = x) := by
  refine ⟨fun x a => rfl, fun x a => rfl, fun x a => rfl,
    fun p x => ?_, fun p x => ?_⟩ <;> simp [Metrics.ema]

/-- C9: the paradigm-state transition is a pure band lookup on the average of
its two inputs, with thresholds 0.15 / 0.35 / 0.55 / 0.75 / 0.90, and its
result does not depend on the prior state. -/
theorem updateParadigmState_band_lookup (p q : Paradigm.ParadigmState) (c a : ℚ) :
    (Paradigm.updateParadigmState p c a = Paradigm.updateParadigmState q c a) ∧
    (Paradigm.updateParadigmState p c a = .NORMAL_SCIENCE ↔ (c + a) / 2 < 0.15) ∧
    (Paradigm.updateParadigmState p c a = .ANOMALY_AWARENESS ↔
      0.15 ≤ (c + a) / 2 ∧ (c + a) / 2 < 0.35) ∧
    (Paradigm.updateParadigmState p c a = .CRISIS_EMERGENCE ↔
      0.35 ≤ (c + a) / 2 ∧ (c + a) / 2 < 0.55) ∧
    (Paradigm.updateParadigmState p c a = .PARADIGM_REVOLUTION ↔
      0.55 ≤ (c + a) / 2 ∧ (c + a) / 2 < 0.75) ∧
    (Paradigm.updateParadigmState p c a = .TRANSITION_CHAOS ↔
      0.75 ≤ (c + a) / 2 ∧ (c + a) / 2 < 0.90) ∧
    (Paradigm.updateParadigmState p c a = .NEW_PARADIGM_FORMATION ↔
      0.90 ≤ (c + a) / 2) := by
  unfold Paradigm.updateParadigmState
  dsimp only
  split_ifs with h1 h2 h3 h4 h5 <;> simp_all <;> (repeat' constructor) <;>
    intros <;> linarith

/-- C8: the phase classifier maps every smoothed composite to exactly one
phase via the bands `<0.30` SURFACE, `<0.50` EXPLORING, `<0.70` DEEP,
`<0.85` INTEGRATION, else BREAKTHROUGH; the bands partition the line with no
gaps and no overlaps (each characterization below is an equivalence, so a
boundary value belongs exactly to the upper band), and the classifier is
monotone. -/
theorem phaseFromComposite_bands (c d : ℚ) (hcd : c ≤ d) :
    (Metrics.phaseFromComposite c = .SURFACE ↔ c < 0.30) ∧
    (Metrics.phaseFromComposite c = .EXPLORING ↔ 0.30 ≤ c ∧ c < 0.50) ∧
    (Metrics.phaseFromComposite c = .DEEP ↔ 0.50 ≤ c ∧ c < 0.70) ∧
    (Metrics.phaseFromComposite c = .INTEGRATION ↔ 0.70 ≤ c ∧ c < 0.85) ∧
    (Metrics.phaseFromComposite c = .BREAKTHROUGH ↔ 0.85 ≤ c) ∧
    Metrics.Phase.idx (Metrics.phaseFromComposite c) ≤
      Metrics.Phase.idx (Metrics.phaseFromComposite d) := by
  unfold Metrics.phaseFromComposite
  split_ifs <;> simp_all [Metrics.Phase.idx] <;> (repeat' constructor) <;>
    intros <;> linarith

/-- C8 witness: the bands and monotonicity at the concrete pair
`(0.3, 0.9)`; in particular the boundary value `0.3` lies in the upper band
EXPLORING. -/
theorem phaseFromComposite_bands_witness :
    (0.3 : ℚ) ≤ 0.9 ∧
    ((Metrics.phaseFromComposite 0.3 = .SURFACE ↔ (0.3 : ℚ) < 0.30) ∧
     (Metrics.phaseFromComposite 0.3 = .EXPLORING ↔
       0.30 ≤ (0.3 : ℚ) ∧ (0.3 : ℚ) < 0.50) ∧
     (Metrics.phaseFromComposite 0.3 = .DEEP ↔
       0.50 ≤ (0.3 : ℚ) ∧ (0.3 : ℚ) < 0.70) ∧
     (Metrics.phaseFromComposite 0.3 = .INTEGRATION ↔
       0.70 ≤ (0.3 : ℚ) ∧ (0.3 : ℚ) < 0.85) ∧
     (Metrics.phaseFromComposite 0.3 = .BREAKTHROUGH ↔ 0.85 ≤ (0.3 : ℚ)) ∧
     Metrics.Phase.idx (Metrics.phaseFromComposite 0.3) ≤
       Metrics.Phase.idx (Metrics.phaseFromComposite 0.9)) :=
  ⟨by norm_num, phaseFromComposite_bands 0.3 0.9 (by norm_num)⟩

/-- C6: the composite score is invariant under uniform positive scaling of
the weight vector: for non-negative weights with positive sum and `k > 0`,
`compositeScore(k*w, m) = compositeScore(w, m)`. -/
theorem compositeScore_scale_invariant (k : ℚ) (w : Metrics.Weights)
    (m : Metrics.MetricParts) (hk : 0 < k)
    (hw : 0 ≤ w.entropy ∧ 0 ≤ w.clarity ∧ 0 ≤ w.novelty ∧ 0 ≤ w.depth ∧
      0 ≤ w.coherence)
    (hsum : 0 < w.entropy + w.clarity + w.novelty + w.depth + w.coherence) :
    Metrics.compositeScore (some (Metrics.scaleWeights k w)) m =
      Metrics.compositeScore (some w) m := by
  unfold Metrics.compositeScore Metrics.scaleWeights
  dsimp only [Option.getD]
  have hks : 0 < k * w.entropy + k * w.clarity + k * w.novelty + k * w.depth +
      k * w.coherence := by nlinarith
  rw [if_pos hks, if_pos hsum]
  congr 1
  rw [show k * w.entropy + k * w.clarity + k * w.novelty + k * w.depth +
        k * w.coherence =
      k * (w.entropy + w.clarity + w.novelty + w.depth + w.coherence) from by ring,
    show k * w.entropy * m.entropy + k * w.clarity * m.clarity +
        k * w.novelty * m.novelty + k * w.depth * m.depth +
        k * w.coherence * m.coherence =
      k * (w.entropy * m.entropy + w.clarity * m.clarity + w.novelty * m.novelty +
        w.depth * m.depth + w.coherence * m.coherence) from by ring,
    mul_div_mul_left _ _ (ne_of_gt hk)]

/-- C6 witness: scaling the default weight vector by `2` leaves the
composite of a concrete metric bundle unchanged. -/
theorem compositeScore_scale_invariant_witness :
    0 < (2 : ℚ) ∧
    (0 ≤ Metrics.DEFAULT_WEIGHTS.entropy ∧ 0 ≤ Metrics.DEFAULT_WEIGHTS.clarity ∧
      0 ≤ Metrics.DEFAULT_WEIGHTS.novelty ∧ 0 ≤ Metrics.DEFAULT_WEIGHTS.depth ∧
      0 ≤ Metrics.DEFAULT_WEIGHTS.coherence) ∧
    0 < Metrics.DEFAULT_WEIGHTS.entropy + Metrics.DEFAULT_WEIGHTS.clarity +
      Metrics.DEFAULT_WEIGHTS.novelty + Metrics.DEFAULT_WEIGHTS.depth +
      Metrics.DEFAULT_WEIGHTS.coherence ∧
    Metrics.compositeScore (some (Metrics.scaleWeights 2 Metrics.DEFAULT_WEIGHTS))
        ⟨1/2, 1/3, 1/4, 1/5, 1/6⟩ =
      Metrics.compositeScore (some Metrics.DEFAULT_WEIGHTS) ⟨1/2, 1/3, 1/4, 1/5, 1/6⟩ :=
  ⟨by norm_num, by norm_num [Metrics.DEFAULT_WEIGHTS], by norm_num [Metrics.DEFAULT_WEIGHTS],
    compositeScore_scale_invariant 2 Metrics.DEFAULT_WEIGHTS ⟨1/2, 1/3, 1/4, 1/5, 1/6⟩
      (by norm_num) (by norm_num [Metrics.DEFAULT_WEIGHTS])
      (by norm_num [Metrics.DEFAULT_WEIGHTS])⟩

/-- The clamp to the unit interval always lands in the unit interval. -/
theorem clamp01_bounds {α : Type} [LinearOrderedField α] (x : α) :
    0 ≤ Metrics.clamp x 0 1 ∧ Metrics.clamp x 0 1 ≤ 1 := by
  unfold Metrics.clamp
  exact ⟨le_max_left _ _, max_le zero_le_one (min_le_left _ _)⟩

/-- C3: for every token list, history set, text and weight vector with
non-negative components, each of the six lexical metrics returns a value in
`[0, 1]`. -/
theorem metrics_bounded (tokens current history : List String) (text : String)
    (w : Metrics.Weights) (m : Metrics.MetricParts)
    (hw : 0 ≤ w.entropy ∧ 0 ≤ w.clarity ∧ 0 ≤ w.novelty ∧ 0 ≤ w.depth ∧
      0 ≤ w.coherence) :
    (0 ≤ Metrics.entropyNorm tokens ∧ Metrics.entropyNorm tokens ≤ 1) ∧
    (0 ≤ Metrics.clarityTTR tokens ∧ Metrics.clarityTTR tokens ≤ 1) ∧
    (0 ≤ Metrics.depthScore text ∧ Metrics.depthScore text ≤ 1) ∧
    (0 ≤ Metrics.coherenceScore tokens ∧ Metrics.coherenceScore tokens ≤ 1) ∧
    (0 ≤ Metrics.noveltyScore current history ∧
      Metrics.noveltyScore current history ≤ 1) ∧
    (0 ≤ Metrics.compositeScore (some w) m ∧
      Metrics.compositeScore (some w) m ≤ 1) := by
  refine ⟨?_, ?_, ?_, ?_, ?_, ?_⟩
  · unfold Metrics.entropyNorm
    dsimp only
    split_ifs <;> first | exact clamp01_bounds _ | norm_num
  · unfold Metrics.clarityTTR
    dsimp only
    split_ifs <;> first | exact clamp01_bounds _ | norm_num
  · unfold Metrics.depthScore
    dsimp only
    exact clamp01_bounds _
  · unfold Metrics.coherenceScore
    dsimp only
    split_ifs <;> first | exact clamp01_bounds _ | norm_num
  · unfold Metrics.noveltyScore
    dsimp only
    split_ifs <;> first | exact clamp01_bounds _ | norm_num
  · unfold Metrics.compositeScore
    dsimp only
    split_ifs <;> first | exact clamp01_bounds _ | norm_num

/-- C3 witness: the bounds at the degenerate inputs (empty token list, empty
text, empty history, default weights). -/
theorem metrics_bounded_witness :
    (0 ≤ Metrics.DEFAULT_WEIGHTS.entropy ∧ 0 ≤ Metrics.DEFAULT_WEIGHTS.clarity ∧
      0 ≤ Metrics.DEFAULT_WEIGHTS.novelty ∧ 0 ≤ Metrics.DEFAULT_WEIGHTS.depth ∧
      0 ≤ Metrics.DEFAULT_WEIGHTS.coherence) ∧
    ((0 ≤ Metrics.entropyNorm [] ∧ Metrics.entropyNorm [] ≤ 1) ∧
     (0 ≤ Metrics.clarityTTR [] ∧ Metrics.clarityTTR [] ≤ 1) ∧
     (0 ≤ Metrics.depthScore "" ∧ Metrics.depthScore "" ≤ 1) ∧
     (0 ≤ Metrics.coherenceScore [] ∧ Metrics.coherenceScore [] ≤ 1) ∧
     (0 ≤ Metrics.noveltyScore [] [] ∧ Metrics.noveltyScore [] [] ≤ 1) ∧
     (0 ≤ Metrics.compositeScore (some Metrics.DEFAULT_WEIGHTS) ⟨0, 0, 0, 0, 0⟩ ∧
       Metrics.compositeScore (some Metrics.DEFAULT_WEIGHTS) ⟨0, 0, 0, 0, 0⟩ ≤ 1)) :=
  ⟨by norm_num [Metrics.DEFAULT_WEIGHTS],
   metrics_bounded [] [] [] "" Metrics.DEFAULT_WEIGHTS ⟨0, 0, 0, 0, 0⟩
     (by norm_num [Metrics.DEFAULT_WEIGHTS])⟩

/-- A singleton frequency map absorbs further occurrences of its key. -/
theorem freqMap_replicate_aux (t : String) :
    ∀ n k : ℕ,
      List.foldl (fun m s => Metrics.mapSet m s (Metrics.mapGetD m s 0 + 1))
        [(t, k)] (List.replicate n t) = [(t, k + n)] := by
  intro n
  induction n with
  | zero => intro k; simp
  | succ n ih =>
      intro k
      have hstep : Metrics.mapSet [(t, k)] t (Metrics.mapGetD [(t, k)] t 0 + 1) =
          [(t, k + 1)] := by
        simp [Metrics.mapGetD, Metrics.mapSet, List.find?]
      rw [List.replicate_succ, List.foldl_cons]
      rw [hstep, ih (k + 1)]
      congr 2
      omega

/-- The frequency map of a constant token list has a single entry. -/
theorem freqMap_replicate (t : String) (n : ℕ) (hn : 0 < n) :
    Metrics.freqMap (List.replicate n t) = [(t, n)] := by
  obtain ⟨m, rfl⟩ : ∃ m, n = m + 1 := ⟨n - 1, by omega⟩
  unfold Metrics.freqMap
  have hstep : Metrics.mapSet [] t (Metrics.mapGetD [] t 0 + 1) = [(t, 1)] := by
    simp [Metrics.mapGetD, Metrics.mapSet, List.find?]
  rw [List.replicate_succ, List.foldl_cons]
  rw [hstep, freqMap_replicate_aux t m 1]
  congr 2
  omega

/-- C10: on a non-empty token list whose tokens are all identical the
vocabulary size is `1`, the entropy normalizer `log2(max(1, V))` is `0`, and
the guarded normalization returns `0` rather than dividing `0 / 0`. -/
theorem entropyNorm_constant_tokens (n : ℕ) (t : String) (hn : 0 < n) :
    Metrics.entropyNorm (List.replicate n t) = 0 := by
  unfold Metrics.entropyNorm
  dsimp only
  rw [freqMap_replicate t n hn]
  simp [Nat.pos_iff_ne_zero.mp hn, Real.logb_one]

/-- C10 witness: three identical tokens score zero entropy. -/
theorem entropyNorm_constant_tokens_witness :
    0 < 3 ∧ Metrics.entropyNorm (List.replicate 3 "a") = 0 :=
  ⟨by decide, entropyNorm_constant_tokens 3 "a" (by decide)⟩

/-- Concrete evaluation of `coherenceScore` on the 20-fold repeated bigram:
the loop counts each distinct repeated bigram once (here `"a b"` and
`"b a"`, hence `2`), over `39` bigrams. -/
theorem coherenceScore_repeatedBigram_eq :
    Metrics.coherenceScore Metrics.repeatedBigramTokens = 37 / 39 := by
  have hlen : Metrics.repeatedBigramTokens.length = 40 := by decide
  have hbl : (Metrics.bigramsOf Metrics.repeatedBigramTokens).length = 39 := by decide
  have hrep : Metrics.repeatsLoop (Metrics.bigramsOf Metrics.repeatedBigramTokens) [] = 2 := by
    decide
  unfold Metrics.coherenceScore
  dsimp only
  rw [hlen, hrep, hbl]
  norm_num [Metrics.clamp]

/-- C2 counterexample: on the message consisting of the same two-token bigram
repeated 20 times, `coherenceScore` evaluates to `37/39 ≈ 0.949`, which is
not at most `0.1`; the claimed high repetition penalty does not occur. -/
theorem coherenceScore_repeated_bigram_not_near_zero :
    Metrics.coherenceScore Metrics.repeatedBigramTokens = 37 / 39 ∧
    ¬(Metrics.coherenceScore Metrics.repeatedBigramTokens ≤ 1 / 10) := by
  refine ⟨coherenceScore_repeatedBigram_eq, ?_⟩
  rw [coherenceScore_repeatedBigram_eq]
  norm_num

/-- C2 amended: on the 20-fold repeated bigram the coherence score is near 1,
namely `1 - 2/39`: the `repeats` counter increments only when a bigram count
reaches exactly two, so the repeated-bigram ratio is the number of distinct
repeated bigrams (2) over the number of bigrams (39), not the fraction of
repeated occurrences. -/
theorem coherenceScore_repeated_bigram_near_one :
    Metrics.coherenceScore Metrics.repeatedBigramTokens = 1 - 2 / 39 ∧
    (9 / 10 : ℚ) ≤ Metrics.coherenceScore Metrics.repeatedBigramTokens := by
  rw [coherenceScore_repeatedBigram_eq]
  norm_num

/-- The reducer returns one of its two arguments. -/
theorem severityReducer_cases (h a : Crisis.CrisisIndicator) :
    Crisis.severityReducer h a = h ∨ Crisis.severityReducer h a = a := by
  unfold Crisis.severityReducer
  split_ifs <;> simp

/-- The reduced indicator is an element of the reduced list. -/
theorem foldl_reducer_mem :
    ∀ (t : List Crisis.CrisisIndicator) (h : Crisis.CrisisIndicator),
      t.foldl Crisis.severityReducer h ∈ h :: t := by
  intro t
  induction t with
  | nil => intro h; simp
  | cons a t ih =>
      intro h
      rw [List.foldl_cons]
      have hm := ih (Crisis.severityReducer h a)
      rcases List.mem_cons.mp hm with h1 | h1
      · rcases severityReducer_cases h a with h2 | h2 <;> rw [h1, h2] <;> simp
      · simp [List.mem_cons, h1]

/-- The reduced indicator has severity at least that of the seed. -/
theorem foldl_reducer_sev_head :
    ∀ (t : List Crisis.CrisisIndicator) (h : Crisis.CrisisIndicator),
      Crisis.Severity.rank h.severity ≤
        Crisis.Severity.rank (t.foldl Crisis.severityReducer h).severity := by
  intro t
  induction t with
  | nil => intro h; exact le_refl _
  | cons a t ih =>
      intro h
      rw [List.foldl_cons]
      refine le_trans ?_ (ih (Crisis.severityReducer h a))
      unfold Crisis.severityReducer
      split_ifs with hc
      · exact le_of_lt hc
      · exact le_refl _

/-- The reduced indicator has severity at least that of every list element. -/
theorem foldl_reducer_sev_mem :
    ∀ (t : List Crisis.CrisisIndicator) (h j : Crisis.CrisisIndicator), j ∈ t →
      Crisis.Severity.rank j.severity ≤
        Crisis.Severity.rank (t.foldl Crisis.severityReducer h).severity := by
  intro t
  induction t with
  | nil => intro h j hj; simp at hj
  | cons a t ih =>
      intro h j hj
      rw [List.foldl_cons]
      rcases List.mem_cons.mp hj with rfl | hj
      · refine le_trans ?_ (foldl_reducer_sev_head t (Crisis.severityReducer h j))
        unfold Crisis.severityReducer
        split_ifs with hc
        · exact le_refl _
        · exact le_of_not_lt hc
      · exact ih (Crisis.severityReducer h a) j hj

/-- The reduce keeps its seed unless some element strictly beats it. -/
theorem foldl_reducer_eq_or_gt :
    ∀ (t : List Crisis.CrisisIndicator) (h : Crisis.CrisisIndicator),
      t.foldl Crisis.severityReducer h = h ∨
        Crisis.Severity.rank h.severity <
          Crisis.Severity.rank (t.foldl Crisis.severityReducer h).severity := by
  intro t
  induction t with
  | nil => intro h; exact Or.inl rfl
  | cons a t ih =>
      intro h
      rw [List.foldl_cons]
      by_cases hc : Crisis.Severity.rank h.severity < Crisis.Severity.rank a.severity
      · have ha : Crisis.severityReducer h a = a := by simp [Crisis.severityReducer, hc]
        rw [ha]
        rcases ih a with h1 | h1
        · rw [h1]; exact Or.inr hc
        · exact Or.inr (lt_trans hc h1)
      · have ha : Crisis.severityReducer h a = h := by simp [Crisis.severityReducer, hc]
        rw [ha]
        exact ih h

/-- On a list whose category ranks strictly increase, a tie at the maximal
severity is won by the reduced indicator (the reduce keeps the earliest
maximal element). -/
theorem foldl_reducer_ties :
    ∀ (t : List Crisis.CrisisIndicator) (h : Crisis.CrisisIndicator),
      (h :: t).Pairwise
        (fun x y => Crisis.CrisisType.rank x.type < Crisis.CrisisType.rank y.type) →
      ∀ j ∈ h :: t,
        Crisis.Severity.rank j.severity =
          Crisis.Severity.rank (t.foldl Crisis.severityReducer h).severity →
        Crisis.CrisisType.rank (t.foldl Crisis.severityReducer h).type ≤
          Crisis.CrisisType.rank j.type := by
  intro t
  induction t with
  | nil =>
      intro h _ j hj _
      rcases List.mem_cons.mp hj with rfl | hj
      · exact le_refl _
      · simp at hj
  | cons a t ih =>
      intro h hsort j hj htie
      obtain ⟨hha, hsort1⟩ := List.pairwise_cons.mp hsort
      obtain ⟨hat, hsort2⟩ := List.pairwise_cons.mp hsort1
      rw [List.foldl_cons] at htie ⊢
      by_cases hc : Crisis.Severity.rank h.severity < Crisis.Severity.rank a.severity
      · have hred : Crisis.severityReducer h a = a := by simp [Crisis.severityReducer, hc]
        rw [hred] at htie ⊢
        have hsorta : (a :: t).Pairwise
            (fun x y => Crisis.CrisisType.rank x.type < Crisis.CrisisType.rank y.type) :=
          List.pairwise_cons.mpr ⟨hat, hsort2⟩
        rcases List.mem_cons.mp hj with rfl | hj1
        · exfalso
          have h1 : Crisis.Severity.rank a.severity ≤
              Crisis.Severity.rank (t.foldl Crisis.severityReducer a).severity :=
            foldl_reducer_sev_head t a
          rw [← htie] at h1
          exact absurd (lt_of_lt_of_le hc h1) (lt_irrefl _)
        · exact ih a hsorta j hj1 htie
      · have hred : Crisis.severityReducer h a = h := by simp [Crisis.severityReducer, hc]
        rw [hred] at htie ⊢
        have hsorth : (h :: t).Pairwise
            (fun x y => Crisis.CrisisType.rank x.type < Crisis.CrisisType.rank y.type) :=
          List.pairwise_cons.mpr ⟨fun x hx => hha x (List.mem_cons_of_mem a hx), hsort2⟩
        rcases List.mem_cons.mp hj with rfl | hj1
        · exact ih j hsorth j (by simp) htie
        · rcases List.mem_cons.mp hj1 with rfl | hj2
          · rcases foldl_reducer_eq_or_gt t h with he | hgt
            · rw [he]
              exact le_of_lt (hha j (by simp))
            · exfalso
              rw [← htie] at hgt
              exact absurd (lt_of_le_of_lt (le_of_not_lt hc) hgt) (lt_irrefl _)
          · exact ih h hsorth j (by simp [hj2]) htie

/-- The first detector only ever produces cognitive-overload indicators. -/
theorem detectCognitiveOverload_type (message : String) (metrics : Option Crisis.MetricsIn)
    (sm : Crisis.SafetyMetrics) (r : ℕ) (i : Crisis.CrisisIndicator) :
    Crisis.detectCognitiveOverload message metrics sm r = some i →
      i.type = .cognitive_overload := by
  unfold Crisis.detectCognitiveOverload
  dsimp only
  split_ifs <;> intro h <;> first | (cases h; rfl) | exact h.elim

/-- The second detector only ever produces emotional-distress indicators. -/
theorem detectEmotionalDistress_type (message : String) (sm : Crisis.SafetyMetrics)
    (r : ℕ) (i : Crisis.CrisisIndicator) :
    Crisis.detectEmotionalDistress message sm r = some i →
      i.type = .emotional_distress := by
  unfold Crisis.detectEmotionalDistress
  dsimp only
  split_ifs <;> intro h <;> first | (cases h; rfl) | exact h.elim

/-- The third detector only ever produces confusion-spiral indicators. -/
theorem detectConfusionSpiral_type (message : String) (context : List String)
    (history : List Crisis.HistEntry) (sm : Crisis.SafetyMetrics) (r : ℕ)
    (i : Crisis.CrisisIndicator) :
    Crisis.detectConfusionSpiral message context history sm r = some i →
      i.type = .confusion_spiral := by
  unfold Crisis.detectConfusionSpiral
  dsimp only
  split_ifs <;> intro h <;> first | (cases h; rfl) | exact h.elim

/-- The fourth detector only ever produces reality-disconnect indicators. -/
theorem detectRealityDisconnect_type (message : String) (metrics : Option Crisis.MetricsIn)
    (sm : Crisis.SafetyMetrics) (r : ℕ) (i : Crisis.CrisisIndicator) :
    Crisis.detectRealityDisconnect message metrics sm r = some i →
      i.type = .reality_disconnect := by
  unfold Crisis.detectRealityDisconnect
  dsimp only
  split_ifs <;> intro h <;> first | (cases h; rfl) | exact h.elim

/-- The fifth detector only ever produces breakthrough-overwhelm indicators. -/
theorem detectBreakthroughOverwhelm_type (metrics : Option Crisis.MetricsIn)
    (sm : Crisis.SafetyMetrics) (r : ℕ) (i : Crisis.CrisisIndicator) :
    Crisis.detectBreakthroughOverwhelm metrics sm r = some i →
      i.type = .breakthrough_overwhelm := by
  unfold Crisis.detectBreakthroughOverwhelm
  cases metrics with
  | none => intro h; exact Option.noConfusion h
  | some m =>
      dsimp only
      split_ifs <;> intro h <;> first | (cases h; rfl) | exact h.elim

/-- A five-slot option list with fixed per-slot categories flattens to a
list with strictly increasing category ranks. -/
theorem pairwise_fired_of_types (o1 o2 o3 o4 o5 : Option Crisis.CrisisIndicator)
    (H1 : ∀ i ∈ o1, i.type = Crisis.CrisisType.cognitive_overload)
    (H2 : ∀ i ∈ o2, i.type = Crisis.CrisisType.emotional_distress)
    (H3 : ∀ i ∈ o3, i.type = Crisis.CrisisType.confusion_spiral)
    (H4 : ∀ i ∈ o4, i.type = Crisis.CrisisType.reality_disconnect)
    (H5 : ∀ i ∈ o5, i.type = Crisis.CrisisType.breakthrough_overwhelm) :
    (List.filterMap id [o1, o2, o3, o4, o5]).Pairwise
      (fun x y => Crisis.CrisisType.rank x.type < Crisis.CrisisType.rank y.type) := by
  cases o1 <;> cases o2 <;> cases o3 <;> cases o4 <;> cases o5 <;>
    simp_all [List.filterMap_cons, List.pairwise_cons, Crisis.CrisisType.rank]

/-- The fired-indicator list of `analyzeForCrisis` carries strictly
increasing category ranks: each detector contributes at most one indicator
of its own fixed category, in invocation order. -/
theorem firedIndicators_pairwise (message : String) (metrics : Option Crisis.MetricsIn)
    (context : List String) (history : List Crisis.HistEntry)
    (sm : Crisis.SafetyMetrics) (rnd : ℕ → ℕ) :
    (Crisis.firedIndicators message metrics context history sm rnd).Pairwise
      (fun x y => Crisis.CrisisType.rank x.type < Crisis.CrisisType.rank y.type) := by
  unfold Crisis.firedIndicators
  exact pairwise_fired_of_types _ _ _ _ _
    (fun i hi => detectCognitiveOverload_type _ _ _ _ i (Option.mem_def.mp hi))
    (fun i hi => detectEmotionalDistress_type _ _ _ i (Option.mem_def.mp hi))
    (fun i hi => detectConfusionSpiral_type _ _ _ _ _ i (Option.mem_def.mp hi))
    (fun i hi => detectRealityDisconnect_type _ _ _ _ i (Option.mem_def.mp hi))
    (fun i hi => detectBreakthroughOverwhelm_type _ _ _ i (Option.mem_def.mp hi))

/-- Indicators with equal cores have equal severities. -/
theorem indicatorCore_severity {a b : Crisis.CrisisIndicator}
    (h : Crisis.indicatorCore a = Crisis.indicatorCore b) : a.severity = b.severity :=
  congrArg (fun p => p.2.1) h

/-- The phrase draw only affects `immediate_action`: the first detector has
the same core under any two randomness sources. -/
theorem detectCognitiveOverload_core (message : String) (metrics : Option Crisis.MetricsIn)
    (sm : Crisis.SafetyMetrics) (r r2 : ℕ) :
    (Crisis.detectCognitiveOverload message metrics sm r).map Crisis.indicatorCore =
      (Crisis.detectCognitiveOverload message metrics sm r2).map Crisis.indicatorCore := by
  unfold Crisis.detectCognitiveOverload
  dsimp only
  split_ifs <;> simp [Crisis.indicatorCore]

/-- The phrase draw only affects `immediate_action`: the second detector has
the same core under any two randomness sources. -/
theorem detectEmotionalDistress_core (message : String) (sm : Crisis.SafetyMetrics)
    (r r2 : ℕ) :
    (Crisis.detectEmotionalDistress message sm r).map Crisis.indicatorCore =
      (Crisis.detectEmotionalDistress message sm r2).map Crisis.indicatorCore := by
  unfold Crisis.detectEmotionalDistress
  dsimp only
  split_ifs <;> simp [Crisis.indicatorCore]

/-- The phrase draw only affects `immediate_action`: the third detector has
the same core under any two randomness sources. -/
theorem detectConfusionSpiral_core (message : String) (context : List String)
    (history : List Crisis.HistEntry) (sm : Crisis.SafetyMetrics) (r r2 : ℕ) :
    (Crisis.detectConfusionSpiral message context history sm r).map Crisis.indicatorCore =
      (Crisis.detectConfusionSpiral message context history sm r2).map Crisis.indicatorCore := by
  unfold Crisis.detectConfusionSpiral
  dsimp only
  split_ifs <;> simp [Crisis.indicatorCore]

/-- The phrase draw only affects `immediate_action`: the fourth detector has
the same core under any two randomness sources. -/
theorem detectRealityDisconnect_core (message : String) (metrics : Option Crisis.MetricsIn)
    (sm : Crisis.SafetyMetrics) (r r2 : ℕ) :
    (Crisis.detectRealityDisconnect message metrics sm r).map Crisis.indicatorCore =
      (Crisis.detectRealityDisconnect message metrics sm r2).map Crisis.indicatorCore := by
  unfold Crisis.detectRealityDisconnect
  dsimp only
  split_ifs <;> simp [Crisis.indicatorCore]

/-- The phrase draw only affects `immediate_action`: the fifth detector has
the same core under any two randomness sources. -/
theorem detectBreakthroughOverwhelm_core (metrics : Option Crisis.MetricsIn)
    (sm : Crisis.SafetyMetrics) (r r2 : ℕ) :
    (Crisis.detectBreakthroughOverwhelm metrics sm r).map Crisis.indicatorCore =
      (Crisis.detectBreakthroughOverwhelm metrics sm r2).map Crisis.indicatorCore := by
  unfold Crisis.detectBreakthroughOverwhelm
  cases metrics with
  | none => rfl
  | some m =>
      dsimp only
      split_ifs <;> simp [Crisis.indicatorCore]

/-- Flattening preserves core-level equality of option lists. -/
theorem filterMap_map_core :
    ∀ l l2 : List (Option Crisis.CrisisIndicator),
      l.map (Option.map Crisis.indicatorCore) = l2.map (Option.map Crisis.indicatorCore) →
      (List.filterMap id l).map Crisis.indicatorCore =
        (List.filterMap id l2).map Crisis.indicatorCore := by
  intro l
  induction l with
  | nil =>
      intro l2 h
      cases l2 with
      | nil => rfl
      | cons b l2 => simp at h
  | cons a l ih =>
      intro l2 h
      cases l2 with
      | nil => simp at h
      | cons b l2 =>
          simp only [List.map_cons, List.cons.injEq] at h
          obtain ⟨hab, hl⟩ := h
          cases a with
          | none =>
              cases b with
              | none =>
                  simp only [List.filterMap_cons, id_eq]
                  exact ih l2 hl
              | some v => simp at hab
          | some u =>
              cases b with
              | none => simp at hab
              | some v =>
                  simp only [List.filterMap_cons, id_eq, List.map_cons, List.cons.injEq]
                  refine ⟨?_, ih l2 hl⟩
                  simpa using hab

/-- Folding the reducer over core-equal lists from core-equal seeds yields
core-equal results: the reducer only reads severities, which are part of the
core. -/
theorem foldl_reducer_core :
    ∀ (t t2 : List Crisis.CrisisIndicator) (h h2 : Crisis.CrisisIndicator),
      Crisis.indicatorCore h = Crisis.indicatorCore h2 →
      t.map Crisis.indicatorCore = t2.map Crisis.indicatorCore →
      Crisis.indicatorCore (t.foldl Crisis.severityReducer h) =
        Crisis.indicatorCore (t2.foldl Crisis.severityReducer h2) := by
  intro t
  induction t with
  | nil =>
      intro t2 h h2 hh ht
      cases t2 with
      | nil => exact hh
      | cons b t2 => simp at ht
  | cons a t ih =>
      intro t2 h h2 hh ht
      cases t2 with
      | nil => simp at ht
      | cons b t2 =>
          simp only [List.map_cons, List.cons.injEq] at ht
          obtain ⟨hab, htt⟩ := ht
          rw [List.foldl_cons, List.foldl_cons]
          refine ih t2 _ _ ?_ htt
          unfold Crisis.severityReducer
          rw [indicatorCore_severity hh, indicatorCore_severity hab]
          split_ifs <;> assumption

/-- The selection of `analyzeForCrisis` depends only on indicator cores. -/
theorem selectHighest_core (l l2 : List Crisis.CrisisIndicator)
    (h : l.map Crisis.indicatorCore = l2.map Crisis.indicatorCore) :
    (Crisis.selectHighest l).map Crisis.indicatorCore =
      (Crisis.selectHighest l2).map Crisis.indicatorCore := by
  cases l with
  | nil =>
      cases l2 with
      | nil => rfl
      | cons b l2 => simp at h
  | cons a l =>
      cases l2 with
      | nil => simp at h
      | cons b l2 =>
          simp only [List.map_cons, List.cons.injEq] at h
          obtain ⟨hab, hl⟩ := h
          simp only [Crisis.selectHighest, Option.map_some]
          exact congrArg some (foldl_reducer_core l l2 a b hab hl)

/-- On a category-rank-sorted list the reduce realizes the
highest-severity / priority-tie-break choice. -/
theorem selectHighest_isMaxPriorityChoice (l : List Crisis.CrisisIndicator)
    (hsort : l.Pairwise
      (fun x y => Crisis.CrisisType.rank x.type < Crisis.CrisisType.rank y.type)) :
    Crisis.isMaxPriorityChoice l (Crisis.selectHighest l) := by
  cases l with
  | nil => exact rfl
  | cons h t =>
      refine ⟨foldl_reducer_mem t h, ?_, fun j hj htie => foldl_reducer_ties t h hsort j hj htie⟩
      intro j hj
      rcases List.mem_cons.mp hj with rfl | hj1
      · exact foldl_reducer_sev_head t j
      · exact foldl_reducer_sev_mem t h j hj1

/-- C5: `analyzeForCrisis` returns at most one indicator (an `Option`); when
it returns one, that indicator fired, has maximal severity among the fired
categories, and severity ties are broken by the fixed category priority
order cognitive_overload > emotional_distress > confusion_spiral >
reality_disconnect > breakthrough_overwhelm (the category ranks); and the
category, severity, confidence and recommendation of the result are
independent of the randomness used to select stabilization phrases. -/
theorem analyzeForCrisis_max_priority_deterministic (message : String)
    (metrics : Option Crisis.MetricsIn) (context : List String)
    (st : Crisis.CrisisState) (now : ℚ) (rnd rnd2 : ℕ → ℕ) :
    Crisis.isMaxPriorityChoice
      (Crisis.firedIndicators message metrics context (Crisis.pushHistory st message now)
        (Crisis.updateSafetyMetrics message metrics context (Crisis.pushHistory st message now))
        rnd)
      (Crisis.analyzeForCrisis message metrics context st now rnd).1 ∧
    (Crisis.analyzeForCrisis message metrics context st now rnd).1.map Crisis.indicatorCore =
      (Crisis.analyzeForCrisis message metrics context st now rnd2).1.map
        Crisis.indicatorCore := by
  constructor
  · exact selectHighest_isMaxPriorityChoice _
      (firedIndicators_pairwise message metrics context (Crisis.pushHistory st message now)
        (Crisis.updateSafetyMetrics message metrics context (Crisis.pushHistory st message now))
        rnd)
  · unfold Crisis.analyzeForCrisis
    dsimp only
    apply selectHighest_core
    unfold Crisis.firedIndicators
    apply filterMap_map_core
    simp only [List.map_cons, List.map_nil, List.cons.injEq, and_true]
    exact ⟨detectCognitiveOverload_core message metrics _ (rnd 0) (rnd2 0),
      detectEmotionalDistress_core message _ (rnd 1) (rnd2 1),
      detectConfusionSpiral_core message context _ _ (rnd 2) (rnd2 2),
      detectRealityDisconnect_core message metrics _ (rnd 3) (rnd2 3),
      detectBreakthroughOverwhelm_core metrics _ (rnd 4) (rnd2 4)⟩

/-- Unfold the `+` instance on `JNum`. -/
theorem jnum_add_def (a b : JNum) : a + b = JNum.add a b := rfl

/-- Unfold the `-` (binary) instance on `JNum`. -/
theorem jnum_sub_def (a b : JNum) : a - b = JNum.sub a b := rfl

/-- Unfold the `*` instance on `JNum`. -/
theorem jnum_mul_def (a b : JNum) : a * b = JNum.mul a b := rfl

/-- Unfold the `/` instance on `JNum`. -/
theorem jnum_div_def (a b : JNum) : a / b = JNum.div a b := rfl

/-- Unfold numeric literals on `JNum`. -/
theorem jnum_ofNat_def (n : ℕ) : (OfNat.ofNat n : JNum) = JNum.num (OfNat.ofNat n) := rfl

/-- Unfold scientific literals on `JNum`. -/
theorem jnum_ofScientific_def (m : ℕ) (e : Bool) (d : ℕ) :
    (OfScientific.ofScientific m e d : JNum) =
      JNum.num (OfScientific.ofScientific m e d) := rfl

/-- Models `calculateCoherence` on the empty message: there is no non-blank
sentence, so the complete-sentence ratio is `0 / 0 = NaN`, which absorbs the
whole expression. -/
theorem calculateCoherence_empty : Crisis.calculateCoherence "" [] = JNum.nan := by
  unfold Crisis.calculateCoherence
  norm_num [fields, trimChars, countContained, Crisis.connectors, strIncludes,
    lowerChars, jnum_add_def, jnum_mul_def, jnum_div_def, jnum_ofNat_def,
    JNum.add, JNum.mul, JNum.div, JNum.min2]

/-- On an empty message the recomputed `coherenceLevel` is `NaN`. -/
theorem updateSafetyMetrics_empty_coherence :
    (Crisis.updateSafetyMetrics "" none [] [⟨"", 0, "user"⟩]).coherenceLevel = JNum.nan := by
  unfold Crisis.updateSafetyMetrics
  dsimp only
  exact calculateCoherence_empty

/-- On an empty message the recomputed `overwhelmIndex` is `NaN`: the `NaN`
coherence level contaminates the weighted sum. -/
theorem updateSafetyMetrics_empty_overwhelm :
    (Crisis.updateSafetyMetrics "" none [] [⟨"", 0, "user"⟩]).overwhelmIndex = JNum.nan := by
  unfold Crisis.updateSafetyMetrics
  norm_num [Crisis.calculateComplexity, Crisis.calculateResponseRate,
    Crisis.detectEmotionalLanguage, Crisis.calculateGrounding, calculateCoherence_empty,
    Crisis.jsOrOpt, countContained, strIncludes, lowerChars, fields, Crisis.sentSep,
    jsIsSpace, Crisis.emotionalWords, Crisis.concreteWords, Crisis.abstractWords,
    jnum_add_def, jnum_sub_def, jnum_mul_def, jnum_div_def, jnum_ofNat_def,
    jnum_ofScientific_def, JNum.add, JNum.sub, JNum.neg, JNum.mul, JNum.div,
    JNum.min2, JNum.max2]

/-- C1: contrary to the claim that `analyzeForCrisis` leaves every safety
metric a well-defined number in `[0, 100]` on malformed/empty input, the
empty message drives `calculateCoherence` into `0 / 0`: in a fresh session,
after `analyzeForCrisis("")` both `coherenceLevel` and `overwhelmIndex` are
`NaN` (the call still raises no exception). -/
theorem analyzeForCrisis_empty_message_nan :
    ((Crisis.analyzeForCrisis "" none [] ⟨Crisis.initialSafetyMetrics, []⟩ 0
        fun _ => 0).2.safetyMetrics.coherenceLevel = JNum.nan) ∧
    ((Crisis.analyzeForCrisis "" none [] ⟨Crisis.initialSafetyMetrics, []⟩ 0
        fun _ => 0).2.safetyMetrics.overwhelmIndex = JNum.nan) := by
  have hh : Crisis.pushHistory ⟨Crisis.initialSafetyMetrics, []⟩ "" 0 =
      [⟨"", 0, "user"⟩] := by
    simp [Crisis.pushHistory]
  constructor <;>
  · unfold Crisis.analyzeForCrisis
    dsimp only
    rw [hh]
    first
      | exact updateSafetyMetrics_empty_coherence
      | exact updateSafetyMetrics_empty_overwhelm

end Ethraic
